import Mathlib

/-!
Verification development for the quality-screener decision engine
(`engine.py`, with the threshold interpolation of `app.py`).

The engine is embedded shallowly:
* a raw spreadsheet cell is `RawCell` (Python dynamic cell values:
  missing/NaN, bool, int, float, string);
* numeric values after coercion are `NumVal := Option ℚ`, with `none`
  playing the role of the floating NaN sentinel (the engine only ever
  tests `pd.isna`/`pd.notna` and compares, never does NaN arithmetic,
  so `Option ℚ` is an exact model of its use of floats);
* a table is a set of column-presence flags (`Cols`) for the
  decision-relevant recognized columns plus a list of rows, mirroring
  pandas' `col in r.index` tests;
* `compute_actions` becomes `computeActions`, with pandas'
  multi-key `sort_values` (which is the stable lexicographic sort
  `numpy.lexsort`) modelled by `List.mergeSort` on the descending key.
-/

/-- A numeric cell after `_to_num`: `none` is the NaN sentinel. -/
abbrev NumVal := Option ℚ

/-- A raw dynamic cell value as it arrives from the spreadsheet.
`na` covers `None`/`NaN`/missing values (`pd.isna` true). Python's
`int` and `float` are kept apart because `str()` of an int like `1`
can be in the affirmative set while `str()` of a float never is. -/
inductive RawCell where
  | na : RawCell
  | b (x : Bool) : RawCell
  | int (i : ℤ) : RawCell
  | float (q : ℚ) : RawCell
  | str (s : String) : RawCell
deriving DecidableEq

/-- Model of Python `str.strip()`: drop surrounding whitespace.
(Defined on the underlying character list so that it evaluates inside
the kernel; core `String.trim` does not.) -/
def pyStrip (s : String) : String :=
  ⟨((s.data.dropWhile Char.isWhitespace).reverse.dropWhile Char.isWhitespace).reverse⟩

/-- Model of Python `str.lower()` on the underlying character list. -/
def pyLower (s : String) : String := ⟨s.data.map Char.toLower⟩

/-- Worker for `pyReplace`; the fuel starts at the list length, which
bounds the number of steps since every step consumes at least one
character. -/
def replaceAllGo (p r : List Char) : ℕ → List Char → List Char
  | 0, l => l
  | _ + 1, [] => []
  | fuel + 1, x :: xs =>
    if p.isPrefixOf (x :: xs) ∧ p ≠ [] then
      r ++ replaceAllGo p r fuel ((x :: xs).drop p.length)
    else x :: replaceAllGo p r fuel xs

/-- Model of Python `str.replace(pat, r)`: replace every non-overlapping
occurrence of `pat`, scanning left to right. -/
def pyReplace (s pat r : String) : String :=
  ⟨replaceAllGo pat.data r.data s.data.length s.data⟩

/-- Model of Python `str.startswith(p)`. -/
def pyStartsWith (s p : String) : Bool := p.data.isPrefixOf s.data

/-- The affirmative set of `_to_bool`. -/
def affirmative : List String := ["true", "1", "yes", "y", "sim", "s", "ok"]

/-- Embeds `_to_bool` (engine.py lines 25-31): NaN → false, native bool →
itself, otherwise `str(x).strip().lower()` matched against the affirmative
set.  A Python `str()` of a float always contains a decimal point, an
exponent letter or is `inf`/`nan`, hence never lies in the affirmative set,
so the float case is `false`. -/
def _to_bool : RawCell → Bool
  | .na => false
  | .b x => x
  | .int i => affirmative.contains (pyLower (pyStrip (toString i)))
  | .float _ => false
  | .str s => affirmative.contains (pyLower (pyStrip s))

/-- Digit-string value, e.g. `['2','5'] ↦ 25`. -/
def digitsToNat (l : List Char) : ℕ :=
  l.foldl (fun n c => 10 * n + (c.toNat - 48)) 0

/-- Unsigned part of the model of Python `float(s)`: digits with at most
one decimal point, at least one digit overall (`"1."` and `".5"` parse,
`"."` does not).  Exponent forms, `inf`/`nan` literals and underscore
separators are modelled as unparsable. -/
def parseUnsignedFloat (cs : List Char) : Option ℚ :=
  match cs.splitOn '.' with
  | [a] =>
    if a ≠ [] ∧ a.all Char.isDigit then some (digitsToNat a) else none
  | [a, b] =>
    if (a ≠ [] ∨ b ≠ []) ∧ a.all Char.isDigit ∧ b.all Char.isDigit then
      some ((digitsToNat a : ℚ) + (digitsToNat b : ℚ) / (10 : ℚ) ^ b.length)
    else none
  | _ => none

/-- Model of Python's `float(s)` on an already-stripped string:
optional sign, then an unsigned decimal literal; `none` models the
`ValueError` that `_to_num` catches. -/
def parsePyFloat (s : String) : Option ℚ :=
  match s.data with
  | [] => none
  | c :: rest =>
    if c = '-' then (parseUnsignedFloat rest).map (fun q => -q)
    else if c = '+' then parseUnsignedFloat rest
    else parseUnsignedFloat (c :: rest)

/-- The string cleanup of `_to_num`:
`str(x).strip().replace("%","").replace(",", ".")`. -/
def cleanNumStr (s : String) : String :=
  pyReplace (pyReplace (pyStrip s) "%" "") "," "."

/-- Embeds `_to_num` (engine.py lines 33-42): NaN → NaN, native numerics →
themselves (Python `bool` is an `int` instance, so `True ↦ 1.0`),
otherwise clean the string and try `float()`; any parse failure → NaN. -/
def _to_num : RawCell → NumVal
  | .na => none
  | .b x => some (if x then 1 else 0)
  | .int i => some (i : ℚ)
  | .float q => some q
  | .str s => parsePyFloat (cleanNumStr s)

/-- Embeds `_normalize_drawdown` (engine.py lines 44-54): NaN passes
through; a value `≤ -1` is percent-scale and divided by 100; anything
else passes through. -/
def _normalize_drawdown : NumVal → NumVal
  | none => none
  | some x => if x ≤ -1 then some (x / 100) else some x

/-- Model of `_safe_get` for a boolean column: the stored value when the column is
present, the supplied default otherwise (engine.py lines 56-57). -/
def getB (present : Bool) (v : Bool) (d : Bool) : Bool :=
  if present then v else d

/-- Model of `_safe_get` for a numeric column with default NaN. -/
def getN (present : Bool) (v : NumVal) : NumVal :=
  if present then v else none

/-- The configuration dictionary: each key may be absent (`none`),
mirroring `cfg.get(key, default)`. -/
structure Cfg where
  SCORE_BUY_MIN : Option ℚ
  DD_BUY : Option ℚ
  DD_STRONG : Option ℚ
  ALLOW_SPECULATIVE : Option Bool
  REQUIRE_PASS_DEBT : Option Bool
  REQUIRE_PASS_INTEREST : Option Bool
  REQUIRE_PASS_FCF : Option Bool
  REQUIRE_PASS_ROIC : Option Bool
  REQUIRE_PASS_PAYOUT : Option Bool
deriving DecidableEq

/-- Embeds `float(cfg.get("SCORE_BUY_MIN", 70))` (engine.py line 118). -/
def cfgSCORE (cfg : Cfg) : ℚ := cfg.SCORE_BUY_MIN.getD 70

/-- Embeds `float(cfg.get("DD_BUY", -0.20))` (engine.py line 119). -/
def cfgDDBUY (cfg : Cfg) : ℚ := cfg.DD_BUY.getD (-0.20)

/-- Embeds `float(cfg.get("DD_STRONG", -0.30))` (engine.py line 120). -/
def cfgDDSTRONG (cfg : Cfg) : ℚ := cfg.DD_STRONG.getD (-0.30)

/-- Embeds `bool(cfg.get("ALLOW_SPECULATIVE", True))` (engine.py line 121). -/
def cfgALLOWSPEC (cfg : Cfg) : Bool := cfg.ALLOW_SPECULATIVE.getD true

/-- Presence flags for the decision-relevant recognized columns
(`col in r.index` in pandas). -/
structure Cols where
  drawdown_from_52w_high : Bool
  score : Bool
  pass_fcf : Bool
  pass_roic : Bool
  pass_payout : Bool
  pass_debt : Bool
  pass_interest_cover : Bool
  QUALITY_PASS : Bool
  ENTRY_PERMITTED : Bool
  BUY_CANDIDATE : Bool
deriving DecidableEq

/-- One raw input row, restricted to the decision-relevant columns
(text columns never influence a decision).  Fields of absent columns
are never read. -/
structure RawRow where
  drawdown_from_52w_high : RawCell
  score : RawCell
  pass_fcf : RawCell
  pass_roic : RawCell
  pass_payout : RawCell
  pass_debt : RawCell
  pass_interest_cover : RawCell
  QUALITY_PASS : RawCell
  ENTRY_PERMITTED : RawCell
  BUY_CANDIDATE : RawCell
deriving DecidableEq

/-- A row after the type-coercion passes of `compute_actions`
(engine.py lines 102-115): numeric columns through `_to_num`, boolean
columns through `_to_bool`, plus the always-present `dd_norm` column.
Fields of absent columns hold the defaults `none`/`false` and are only
ever read through `getB`/`getN` guarded by the presence flag. -/
@[ext]
structure NormRow where
  drawdown_from_52w_high : NumVal
  score : NumVal
  dd_norm : NumVal
  pass_fcf : Bool
  pass_roic : Bool
  pass_payout : Bool
  pass_debt : Bool
  pass_interest_cover : Bool
  QUALITY_PASS : Bool
  ENTRY_PERMITTED : Bool
  BUY_CANDIDATE : Bool
deriving DecidableEq

/-- The normalization pass of `compute_actions` (lines 102-115): each
present numeric column through `_to_num`, each present boolean column
through `_to_bool`, and `dd_norm` set to the normalized drawdown when
the drawdown column is present, NaN otherwise. -/
def normalizeRow (cols : Cols) (r : RawRow) : NormRow :=
  { drawdown_from_52w_high :=
      if cols.drawdown_from_52w_high then _to_num r.drawdown_from_52w_high else none
    score := if cols.score then _to_num r.score else none
    dd_norm :=
      if cols.drawdown_from_52w_high then
        _normalize_drawdown (_to_num r.drawdown_from_52w_high)
      else none
    pass_fcf := if cols.pass_fcf then _to_bool r.pass_fcf else false
    pass_roic := if cols.pass_roic then _to_bool r.pass_roic else false
    pass_payout := if cols.pass_payout then _to_bool r.pass_payout else false
    pass_debt := if cols.pass_debt then _to_bool r.pass_debt else false
    pass_interest_cover :=
      if cols.pass_interest_cover then _to_bool r.pass_interest_cover else false
    QUALITY_PASS := if cols.QUALITY_PASS then _to_bool r.QUALITY_PASS else false
    ENTRY_PERMITTED := if cols.ENTRY_PERMITTED then _to_bool r.ENTRY_PERMITTED else false
    BUY_CANDIDATE := if cols.BUY_CANDIDATE then _to_bool r.BUY_CANDIDATE else false }

/-- Embeds `_passes_required` (engine.py lines 59-86): for each toggle
(defaults: debt/interest/fcf on, roic/payout off) a missing-or-false
flag contributes its identifier, in the fixed order
debt, interest-cover, fcf, roic, payout. -/
def passesRequired (cols : Cols) (r : NormRow) (cfg : Cfg) : List String :=
  (if cfg.REQUIRE_PASS_DEBT.getD true ∧ ¬ getB cols.pass_debt r.pass_debt false then
    ["pass_debt"] else []) ++
  (if cfg.REQUIRE_PASS_INTEREST.getD true ∧
      ¬ getB cols.pass_interest_cover r.pass_interest_cover false then
    ["pass_interest_cover"] else []) ++
  (if cfg.REQUIRE_PASS_FCF.getD true ∧ ¬ getB cols.pass_fcf r.pass_fcf false then
    ["pass_fcf"] else []) ++
  (if cfg.REQUIRE_PASS_ROIC.getD false ∧ ¬ getB cols.pass_roic r.pass_roic false then
    ["pass_roic"] else []) ++
  (if cfg.REQUIRE_PASS_PAYOUT.getD false ∧ ¬ getB cols.pass_payout r.pass_payout false then
    ["pass_payout"] else [])

/-- Embeds `sell_signal` (engine.py lines 123-130).  Note the default of
`_safe_get(r, "QUALITY_PASS", True)` is `True` here. -/
def sellSignal (cols : Cols) (r : NormRow) (cfg : Cfg) : Bool × String :=
  if ¬ getB cols.QUALITY_PASS r.QUALITY_PASS true then
    (true, "QUALITY_PASS=FALSE")
  else
    let required_failed := passesRequired cols r cfg
    if required_failed ≠ [] then (true, String.intercalate " / " required_failed)
    else (false, "")

/-- Round half to even, as Python `format` does for `:.0%`. -/
def pyRoundEven (q : ℚ) : ℤ :=
  let f := ⌊q⌋
  let r := q - f
  if r < 1 / 2 then f
  else if 1 / 2 < r then f + 1
  else if f % 2 = 0 then f else f + 1

/-- Model of the f-string `f"{x:.0%}"`. -/
def pctFmt (q : ℚ) : String := toString (pyRoundEven (q * 100)) ++ "%"

/-- Embeds `buy_gate` (engine.py lines 132-155). -/
def buyGate (cols : Cols) (r : NormRow) (cfg : Cfg) : Bool × String :=
  if ¬ getB cols.ENTRY_PERMITTED r.ENTRY_PERMITTED false then
    (false, "ENTRY_PERMITTED=FALSE")
  else if ¬ getB cols.QUALITY_PASS r.QUALITY_PASS false then
    (false, "QUALITY_PASS=FALSE")
  else
    let buy_candidate := getB cols.BUY_CANDIDATE r.BUY_CANDIDATE false
    let score_ok : Bool :=
      match getN cols.score r.score with
      | some s => decide (cfgSCORE cfg ≤ s)
      | none => false
    if ¬ (buy_candidate ∨ score_ok) then (false, "NO_BUY_CANDIDATE_OR_SCORE")
    else
      let ddBad : Bool :=
        match r.dd_norm with
        | some dd => decide (cfgDDBUY cfg < dd)
        | none => false
      if ddBad then
        (false, "INSUFFICIENT_DRAWDOWN(" ++ pctFmt (r.dd_norm.getD 0) ++ ")")
      else
        let required_failed := passesRequired cols r cfg
        if required_failed ≠ [] then
          if cfgALLOWSPEC cfg then
            (true, "ENTRY_OK_WITH_FLAGS:" ++ String.intercalate "," required_failed)
          else
            (false, "FAILED_REQUIRED:" ++ String.intercalate "," required_failed)
        else (true, "ENTRY_OK")

/-- The watch-flag collection of `decide` (engine.py lines 174-178):
only when `ENTRY_PERMITTED` holds, and only over columns present on the
record, in the order debt, interest-cover, fcf, payout, roic. -/
def watchFlags (cols : Cols) (r : NormRow) : List String :=
  if getB cols.ENTRY_PERMITTED r.ENTRY_PERMITTED false then
    (if cols.pass_debt ∧ r.pass_debt = false then ["pass_debt"] else []) ++
    (if cols.pass_interest_cover ∧ r.pass_interest_cover = false then
      ["pass_interest_cover"] else []) ++
    (if cols.pass_fcf ∧ r.pass_fcf = false then ["pass_fcf"] else []) ++
    (if cols.pass_payout ∧ r.pass_payout = false then ["pass_payout"] else []) ++
    (if cols.pass_roic ∧ r.pass_roic = false then ["pass_roic"] else [])
  else []

/-- Embeds `decide` (engine.py lines 157-183); returns
`(ACTION, REASON_BUY, REASON_SELL, FAILED_CHECKS)`.  Named `decideRow`
because `decide` is taken in Lean. -/
def decideRow (cols : Cols) (r : NormRow) (cfg : Cfg) : String × String × String × String :=
  let s := sellSignal cols r cfg
  if s.1 then ("REVIEW SELL", "", s.2, s.2)
  else
    let b := buyGate cols r cfg
    if b.1 then
      let flags :=
        if pyStartsWith b.2 "ENTRY_OK_WITH_FLAGS:" then
          pyReplace b.2 "ENTRY_OK_WITH_FLAGS:" ""
        else ""
      let failed := if flags ≠ "" then pyReplace flags "," " / " else ""
      let ddStrongOK : Bool :=
        match r.dd_norm with
        | some dd => decide (dd ≤ cfgDDSTRONG cfg)
        | none => false
      if ddStrongOK ∧ failed = "" then ("STRONG BUY", b.2, "", "")
      else if failed ≠ "" ∧ cfgALLOWSPEC cfg then
        ("SPECULATIVE / WATCH", b.2, "", failed)
      else ("BUY", b.2, "", "")
    else
      let w := watchFlags cols r
      if w ≠ [] then
        ("WATCH", "", String.intercalate " / " w, String.intercalate " / " w)
      else ("HOLD", "", "", "")

/-- One output row: the normalized row plus the decision columns
appended by `compute_actions` (engine.py lines 185-190). -/
structure OutRow where
  row : NormRow
  ACTION : String
  REASON_BUY : String
  REASON_SELL : String
  FAILED_CHECKS : String
  BUY_SIGNAL : Bool
  SELL_SIGNAL : Bool
deriving DecidableEq

/-- Normalization, decision and signal derivation for one row
(engine.py lines 102-115 and 185-190):
`BUY_SIGNAL = ACTION.isin(["BUY","STRONG BUY"])`,
`SELL_SIGNAL = ACTION.eq("REVIEW SELL")`. -/
def annotate (cols : Cols) (cfg : Cfg) (r : RawRow) : OutRow :=
  let n := normalizeRow cols r
  let d := decideRow cols n cfg
  { row := n
    ACTION := d.1
    REASON_BUY := d.2.1
    REASON_SELL := d.2.2.1
    FAILED_CHECKS := d.2.2.2
    BUY_SIGNAL := decide (d.1 = "BUY" ∨ d.1 = "STRONG BUY")
    SELL_SIGNAL := decide (d.1 = "REVIEW SELL") }

/-- Strict before-order for a boolean sort key sorted descending
(`True` first): exactly `x ∧ ¬ y`. -/
def boolDescLT (x y : Bool) : Bool := x && !y

/-- Weak before-order for a numeric sort key sorted descending
with NaN placed last (`ascending=False`, `na_position="last"`). -/
def numDescLE : NumVal → NumVal → Bool
  | none, none => true
  | none, some _ => false
  | some _, none => true
  | some p, some q => decide (q ≤ p)

/-- The sort key of `compute_actions` (engine.py lines 192-195) as a
"comes no later than" relation: lexicographic on `BUY_SIGNAL`
descending, then `SELL_SIGNAL` descending, then — only when the score
column is present — `score` descending with NaN last. -/
def keyLE (useScore : Bool) (a b : OutRow) : Bool :=
  boolDescLT a.BUY_SIGNAL b.BUY_SIGNAL ||
    (a.BUY_SIGNAL == b.BUY_SIGNAL &&
      (boolDescLT a.SELL_SIGNAL b.SELL_SIGNAL ||
        (a.SELL_SIGNAL == b.SELL_SIGNAL &&
          (!useScore || numDescLE a.row.score b.row.score))))

/-- An input table: presence flags for the recognized decision columns
and the data rows. -/
structure Table where
  cols : Cols
  rows : List RawRow
deriving DecidableEq

/-- An output table. -/
structure OutTable where
  cols : Cols
  rows : List OutRow
deriving DecidableEq

/-- Embeds `compute_actions` (engine.py lines 88-197): normalize and
decide each row, then sort by the descending key.  pandas'
`sort_values` with a multi-column `by` uses the stable `numpy.lexsort`,
modelled here by the stable `List.mergeSort`. -/
def computeActions (t : Table) (cfg : Cfg) : OutTable :=
  { cols := t.cols
    rows := (t.rows.map (annotate t.cols cfg)).mergeSort (keyLE t.cols.score) }

/-- Embeds `compute_actions` together with the state of its input: line 94
(`out = df.copy()`) copies the input table and every later assignment
targets the copy `out`, so the call leaves `df` as it was; the first
component is the input table as it stands after the call. -/
def computeActionsFrom (df : Table) (cfg : Cfg) : Table × OutTable :=
  let out := df
  (df, computeActions out cfg)

/-- Embeds the full call of `compute_actions` including its one failure
path.  On a frame with at least one row, `out.apply(decide, axis=1,
result_type="expand")` expands the 4-tuples of `decide` into exactly
four columns and the call runs to the sorted result.  On a zero-row
frame, pandas takes the `apply_empty_result` path, which for
`result_type="expand"` returns a copy of `out` itself, so the
assignment `decided.columns = ["ACTION", "REASON_BUY", "REASON_SELL",
"FAILED_CHECKS"]` (engine.py line 186) raises `ValueError: Length
mismatch` whenever that frame does not have exactly four columns.
`outCols` is the column count of the normalized frame `out` (all input
columns plus `dd_norm`), which the recognized-columns row model does
not otherwise track. -/
def computeActionsRun (outCols : ℕ) (t : Table) (cfg : Cfg) :
    Except String OutTable :=
  if t.rows = [] ∧ outCols ≠ 4 then .error "ValueError: Length mismatch"
  else .ok (computeActions t cfg)

/-- Re-embed a normalized numeric value as a raw cell of the output
table: NaN stays a NaN cell, a number is a float cell. -/
def numCell : NumVal → RawCell
  | none => .na
  | some q => .float q

/-- Restrict one output row to the original recognized columns: the
normalized values become the raw cells a second run would read. -/
def restrictRow (n : NormRow) : RawRow :=
  { drawdown_from_52w_high := numCell n.drawdown_from_52w_high
    score := numCell n.score
    pass_fcf := .b n.pass_fcf
    pass_roic := .b n.pass_roic
    pass_payout := .b n.pass_payout
    pass_debt := .b n.pass_debt
    pass_interest_cover := .b n.pass_interest_cover
    QUALITY_PASS := .b n.QUALITY_PASS
    ENTRY_PERMITTED := .b n.ENTRY_PERMITTED
    BUY_CANDIDATE := .b n.BUY_CANDIDATE }

/-- Restrict an output table to the original recognized columns
(dropping `dd_norm`, the decision columns and the signal booleans). -/
def restrictTable (T : OutTable) : Table :=
  { cols := T.cols, rows := T.rows.map (fun o => restrictRow o.row) }

/-- Model of `numpy.interp` over the three anchors `{0, 50, 100}`
(app.py lines 64-66): piecewise-linear, clamped outside the anchors. -/
def interp3 (x y0 y1 y2 : ℚ) : ℚ :=
  if x ≤ 0 then y0
  else if x ≤ 50 then y0 + (y1 - y0) * (x - 0) / 50
  else if x ≤ 100 then y1 + (y2 - y1) * (x - 50) / 50
  else y2

/-- Python `int()` on a rational: truncation toward zero. -/
def pyTrunc (q : ℚ) : ℤ := if 0 ≤ q then ⌊q⌋ else -⌊-q⌋

/-- Embeds `int(np.interp(risk, [0, 50, 100], [85, 70, 55]))` (app.py line 64). -/
def scoreMinDefault (risk : ℚ) : ℤ := pyTrunc (interp3 risk 85 70 55)

/-- Embeds `float(np.interp(risk, [0, 50, 100], [-0.35, -0.20, -0.10]))`
(app.py line 65). -/
def ddBuyDefault (risk : ℚ) : ℚ := interp3 risk (-0.35) (-0.20) (-0.10)

/-- Embeds `float(np.interp(risk, [0, 50, 100], [-0.45, -0.30, -0.20]))`
(app.py line 66). -/
def ddStrongDefault (risk : ℚ) : ℚ := interp3 risk (-0.45) (-0.30) (-0.20)

/-- The required-checks gate as the specification words it: over the
ordered list debt, interest-cover, fcf, roic, payout, keep each flag
whose toggle is enabled and whose record flag is not true, and collect
the identifiers.  Written from the spec, to be compared with
`passesRequired`. -/
def requiredFailedSpec (cols : Cols) (r : NormRow) (cfg : Cfg) : List String :=
  (([("pass_debt", cfg.REQUIRE_PASS_DEBT.getD true, getB cols.pass_debt r.pass_debt false),
     ("pass_interest_cover", cfg.REQUIRE_PASS_INTEREST.getD true,
       getB cols.pass_interest_cover r.pass_interest_cover false),
     ("pass_fcf", cfg.REQUIRE_PASS_FCF.getD true, getB cols.pass_fcf r.pass_fcf false),
     ("pass_roic", cfg.REQUIRE_PASS_ROIC.getD false, getB cols.pass_roic r.pass_roic false),
     ("pass_payout", cfg.REQUIRE_PASS_PAYOUT.getD false,
       getB cols.pass_payout r.pass_payout false)] :
    List (String × Bool × Bool)).filter
      (fun e => e.2.1 && !e.2.2)).map (fun e => e.1)

/-! ## Shared lemmas -/

/-- Re-reading a re-embedded normalized numeric value gives it back. -/
theorem toNum_numCell (v : NumVal) : _to_num (numCell v) = v := by
  cases v <;> rfl

/-- Normalization is idempotent across a restrict/re-read round trip. -/
theorem normalizeRow_restrictRow (cols : Cols) (r : RawRow) :
    normalizeRow cols (restrictRow (normalizeRow cols r)) = normalizeRow cols r := by
  ext <;> simp only [normalizeRow, restrictRow] <;> split <;>
    simp_all [toNum_numCell, _to_bool]

/-- Annotating the restriction of an annotated row changes nothing. -/
theorem annotate_restrictRow (cols : Cols) (cfg : Cfg) (r : RawRow) :
    annotate cols cfg (restrictRow (annotate cols cfg r).row) = annotate cols cfg r := by
  show annotate cols cfg (restrictRow (normalizeRow cols r)) = annotate cols cfg r
  unfold annotate
  rw [normalizeRow_restrictRow]

/-- The in-line required-checks accumulation of `_passes_required`
agrees with the specification's filter-over-an-ordered-list reading. -/
theorem passesRequired_eq_spec (cols : Cols) (r : NormRow) (cfg : Cfg) :
    passesRequired cols r cfg = requiredFailedSpec cols r cfg := by
  unfold passesRequired requiredFailedSpec
  rcases hd : cfg.REQUIRE_PASS_DEBT.getD true <;>
  rcases hi : cfg.REQUIRE_PASS_INTEREST.getD true <;>
  rcases hf : cfg.REQUIRE_PASS_FCF.getD true <;>
  rcases hr : cfg.REQUIRE_PASS_ROIC.getD false <;>
  rcases hp : cfg.REQUIRE_PASS_PAYOUT.getD false <;>
  rcases g1 : getB cols.pass_debt r.pass_debt false <;>
  rcases g2 : getB cols.pass_interest_cover r.pass_interest_cover false <;>
  rcases g3 : getB cols.pass_fcf r.pass_fcf false <;>
  rcases g4 : getB cols.pass_roic r.pass_roic false <;>
  rcases g5 : getB cols.pass_payout r.pass_payout false <;>
  simp [List.filter, List.map]

/-- The classifier only ever emits one of the six action labels. -/
theorem decideRow_action_mem (cols : Cols) (r : NormRow) (cfg : Cfg) :
    (decideRow cols r cfg).1 ∈
      (["STRONG BUY", "BUY", "SPECULATIVE / WATCH", "WATCH", "HOLD",
        "REVIEW SELL"] : List String) := by
  unfold decideRow
  simp only [apply_ite (fun p : String × String × String × String => p.1)]
  split_ifs <;> simp

/-- Totality of the descending sort key. -/
theorem numDescLE_total (x y : NumVal) : numDescLE x y || numDescLE y x := by
  rcases x with _ | p <;> rcases y with _ | q <;> simp [numDescLE]
  exact le_total q p

/-- Transitivity of the descending numeric key. -/
theorem numDescLE_trans {x y z : NumVal} (h1 : numDescLE x y = true)
    (h2 : numDescLE y z = true) : numDescLE x z = true := by
  rcases x with _ | p <;> rcases y with _ | q <;> rcases z with _ | s <;>
    simp_all [numDescLE]
  exact h2.trans h1

/-- Totality of the full sort key. -/
theorem keyLE_total (u : Bool) (a b : OutRow) : keyLE u a b || keyLE u b a := by
  unfold keyLE boolDescLT
  cases h1 : a.BUY_SIGNAL <;> cases h2 : b.BUY_SIGNAL <;>
    cases h3 : a.SELL_SIGNAL <;> cases h4 : b.SELL_SIGNAL <;> cases u <;>
    simp_all <;> exact (Bool.or_eq_true _ _).mp (numDescLE_total _ _) |>.elim Or.inl Or.inr

/-- Transitivity of the full sort key. -/
theorem keyLE_trans (u : Bool) (a b c : OutRow) (h1 : keyLE u a b = true)
    (h2 : keyLE u b c = true) : keyLE u a c = true := by
  unfold keyLE boolDescLT at *
  cases hb1 : a.BUY_SIGNAL <;> cases hb2 : b.BUY_SIGNAL <;> cases hb3 : c.BUY_SIGNAL <;>
    cases hs1 : a.SELL_SIGNAL <;> cases hs2 : b.SELL_SIGNAL <;> cases hs3 : c.SELL_SIGNAL <;>
    cases u <;> simp_all <;> exact numDescLE_trans h1 h2

/-- A row with `BUY_SIGNAL` cannot key-precede one without it. -/
theorem keyLE_buy {u : Bool} {a b : OutRow} (h : keyLE u a b = true)
    (hb : b.BUY_SIGNAL = true) : a.BUY_SIGNAL = true := by
  unfold keyLE boolDescLT at h
  cases h1 : a.BUY_SIGNAL <;> cases h2 : b.BUY_SIGNAL <;> simp_all

/-- Interpolation formula on the left segment of the three anchors. -/
theorem interp3_left {x y0 y1 y2 : ℚ} (h0 : 0 < x) (h50 : x ≤ 50) :
    interp3 x y0 y1 y2 = y0 + (y1 - y0) * x / 50 := by
  rw [interp3, if_neg (by linarith), if_pos h50]
  ring

/-- Interpolation formula on the right segment of the three anchors. -/
theorem interp3_right {x y0 y1 y2 : ℚ} (h50 : 50 < x) (h100 : x ≤ 100) :
    interp3 x y0 y1 y2 = y1 + (y2 - y1) * (x - 50) / 50 := by
  rw [interp3, if_neg (by linarith), if_neg (by linarith), if_pos h100]

/-- Fully-present column set, used in concrete instantiations. -/
def colsAll : Cols := ⟨true, true, true, true, true, true, true, true, true, true⟩

/-- Column set with every recognized decision column absent. -/
def colsEmpty : Cols := ⟨false, false, false, false, false, false, false, false, false, false⟩

/-- An empty configuration dictionary. -/
def noneCfg : Cfg := ⟨none, none, none, none, none, none, none, none, none⟩

/-- Configuration disabling all five required-pass toggles. -/
def cfgNoReq : Cfg :=
  ⟨none, none, none, none, some false, some false, some false, some false, some false⟩

/-- A row whose every cell is missing. -/
def rowNA : RawRow := ⟨.na, .na, .na, .na, .na, .na, .na, .na, .na, .na⟩

/-- A fully quality-passing, entry-permitted candidate row at a -35
drawdown. -/
def rowStrong : RawRow :=
  ⟨.int (-35), .int 80, .b true, .b true, .b true, .b true, .b true,
    .b true, .b true, .b true⟩

/-- Two-row table whose rows tie on the whole sort key. -/
def tieTable : Table :=
  ⟨colsAll, [rowNA, { rowNA with drawdown_from_52w_high := .int (-5) }]⟩

/-! ## Claims -/

/-- Claim C1: every record of a `compute_actions` result carries exactly
one `ACTION` from the closed six-label set, `BUY_SIGNAL` holds iff the
action is `BUY` or `STRONG BUY`, and `SELL_SIGNAL` holds iff the action
is `REVIEW SELL`. -/
theorem C1_thm (t : Table) (cfg : Cfg) (o : OutRow)
    (ho : o ∈ (computeActions t cfg).rows) :
    o.ACTION ∈
      (["STRONG BUY", "BUY", "SPECULATIVE / WATCH", "WATCH", "HOLD",
        "REVIEW SELL"] : List String) ∧
    (o.BUY_SIGNAL = true ↔ (o.ACTION = "BUY" ∨ o.ACTION = "STRONG BUY")) ∧
    (o.SELL_SIGNAL = true ↔ o.ACTION = "REVIEW SELL") := by
  simp only [computeActions, List.mem_mergeSort, List.mem_map] at ho
  obtain ⟨r, hr, rfl⟩ := ho
  refine ⟨decideRow_action_mem .., ?_, ?_⟩ <;> simp [annotate]

/-- Claim C1 at a concrete one-row table. -/
theorem C1_witness :
    (annotate colsAll noneCfg rowStrong ∈
      (computeActions ⟨colsAll, [rowStrong]⟩ noneCfg).rows) ∧
    ((annotate colsAll noneCfg rowStrong).ACTION ∈
      (["STRONG BUY", "BUY", "SPECULATIVE / WATCH", "WATCH", "HOLD",
        "REVIEW SELL"] : List String) ∧
    ((annotate colsAll noneCfg rowStrong).BUY_SIGNAL = true ↔
      ((annotate colsAll noneCfg rowStrong).ACTION = "BUY" ∨
        (annotate colsAll noneCfg rowStrong).ACTION = "STRONG BUY")) ∧
    ((annotate colsAll noneCfg rowStrong).SELL_SIGNAL = true ↔
      (annotate colsAll noneCfg rowStrong).ACTION = "REVIEW SELL")) := by
  have hmem : annotate colsAll noneCfg rowStrong ∈
      (computeActions ⟨colsAll, [rowStrong]⟩ noneCfg).rows := by
    simp [computeActions]
  exact ⟨hmem, C1_thm ⟨colsAll, [rowStrong]⟩ noneCfg _ hmem⟩

/-- Claim C2: the sell signal fires iff `QUALITY_PASS` is false or the
required-checks list (exactly the spec's ordered, toggle-gated filter)
is non-empty; a false `QUALITY_PASS` yields exactly the reason
`QUALITY_PASS=FALSE` regardless of the required checks, and otherwise
the reason is the failed identifiers joined by `" / "`. -/
theorem C2_thm (cols : Cols) (r : NormRow) (cfg : Cfg) :
    ((sellSignal cols r cfg).1 = true ↔
      getB cols.QUALITY_PASS r.QUALITY_PASS true = false ∨
        requiredFailedSpec cols r cfg ≠ []) ∧
    (getB cols.QUALITY_PASS r.QUALITY_PASS true = false →
      (sellSignal cols r cfg).2 = "QUALITY_PASS=FALSE") ∧
    (getB cols.QUALITY_PASS r.QUALITY_PASS true = true →
      (sellSignal cols r cfg).2 =
        String.intercalate " / " (requiredFailedSpec cols r cfg)) ∧
    passesRequired cols r cfg = requiredFailedSpec cols r cfg := by
  refine ⟨?_, ?_, ?_, passesRequired_eq_spec cols r cfg⟩ <;>
    unfold sellSignal <;>
    rcases hq : getB cols.QUALITY_PASS r.QUALITY_PASS true <;>
    simp [hq, ← passesRequired_eq_spec] <;>
    rcases hpr : passesRequired cols r cfg <;> simp [hpr, String.intercalate]

/-- Claim C2 at concrete records: one failing `QUALITY_PASS`, one
passing it with the three default-required flags missing. -/
theorem C2_witness :
    ((sellSignal { colsEmpty with QUALITY_PASS := true }
        (normalizeRow { colsEmpty with QUALITY_PASS := true }
          { rowNA with QUALITY_PASS := .b false }) noneCfg).2 =
      "QUALITY_PASS=FALSE") ∧
    ((sellSignal { colsEmpty with QUALITY_PASS := true }
        (normalizeRow { colsEmpty with QUALITY_PASS := true }
          { rowNA with QUALITY_PASS := .b true }) noneCfg).2 =
      String.intercalate " / "
        (requiredFailedSpec { colsEmpty with QUALITY_PASS := true }
          (normalizeRow { colsEmpty with QUALITY_PASS := true }
            { rowNA with QUALITY_PASS := .b true }) noneCfg)) := by
  exact ⟨(C2_thm _ _ _).2.1 (by decide), (C2_thm _ _ _).2.2.1 (by decide)⟩

/-- Claim C3: drawdown normalization divides by 100 exactly on inputs
`≤ -1` (so `-1 ↦ -0.01`), passes values in `(-1, 0)` through unchanged,
and passes NaN through. -/
theorem C3_thm :
    (∀ x : ℚ, x ≤ -1 → _normalize_drawdown (some x) = some (x / 100)) ∧
    (∀ x : ℚ, -1 < x → x < 0 → _normalize_drawdown (some x) = some x) ∧
    _normalize_drawdown none = none := by
  refine ⟨fun x hx => ?_, fun x hx1 hx0 => ?_, rfl⟩
  · simp [_normalize_drawdown, hx]
  · simp [_normalize_drawdown, not_le.mpr hx1]

/-- Claim C3 at the spec's three sample inputs. -/
theorem C3_witness :
    _normalize_drawdown (some (-25)) = some (-0.25) ∧
    _normalize_drawdown (some (-0.25)) = some (-0.25) ∧
    _normalize_drawdown (some (-1)) = some (-0.01) := by
  refine ⟨?_, C3_thm.2.1 (-0.25) (by norm_num) (by norm_num), ?_⟩
  · have h := C3_thm.1 (-25) (by norm_num)
    rw [h]; norm_num
  · have h := C3_thm.1 (-1) (by norm_num)
    rw [h]; norm_num

/-- Claim C4 as frozen is false: with all required-pass toggles off, a
record whose `QUALITY_PASS` column is absent draws no sell signal, while
the same record with the column present and false does — so an absent
boolean is not treated as false by the sell rule; likewise the
classifier maps an entry-permitted record to `HOLD` when a quality flag
column is absent but to `WATCH` when it is present and false. -/
theorem C4_counterexample :
    (sellSignal colsEmpty (normalizeRow colsEmpty rowNA) cfgNoReq).1 = false ∧
    (sellSignal { colsEmpty with QUALITY_PASS := true }
      (normalizeRow { colsEmpty with QUALITY_PASS := true }
        { rowNA with QUALITY_PASS := .b false }) cfgNoReq).1 = true ∧
    (annotate { colsEmpty with ENTRY_PERMITTED := true } cfgNoReq
      { rowNA with ENTRY_PERMITTED := .b true }).ACTION = "HOLD" ∧
    (annotate { colsEmpty with ENTRY_PERMITTED := true, pass_debt := true } cfgNoReq
      { rowNA with ENTRY_PERMITTED := .b true, pass_debt := .b false }).ACTION =
      "WATCH" := by
  decide

/-- Claim C4 (amended): an absent numeric column is treated as NaN and
an absent boolean column as false throughout the buy gate and the
required-checks gate — except that the sell rule treats an absent
`QUALITY_PASS` as true, and the classifier's watch-list collection
skips absent flag columns (like present-and-true flags) rather than
treating them as false. -/
theorem C4_thm (cols : Cols) (r : NormRow) (rr : RawRow) (cfg : Cfg) :
    (buyGate { cols with score := false } r cfg =
      buyGate { cols with score := true } { r with score := none } cfg) ∧
    (normalizeRow { cols with drawdown_from_52w_high := false } rr =
      normalizeRow { cols with drawdown_from_52w_high := true }
        { rr with drawdown_from_52w_high := .na }) ∧
    (buyGate { cols with ENTRY_PERMITTED := false } r cfg =
      buyGate { cols with ENTRY_PERMITTED := true } { r with ENTRY_PERMITTED := false } cfg) ∧
    (buyGate { cols with QUALITY_PASS := false } r cfg =
      buyGate { cols with QUALITY_PASS := true } { r with QUALITY_PASS := false } cfg) ∧
    (buyGate { cols with BUY_CANDIDATE := false } r cfg =
      buyGate { cols with BUY_CANDIDATE := true } { r with BUY_CANDIDATE := false } cfg) ∧
    (passesRequired { cols with pass_debt := false } r cfg =
      passesRequired { cols with pass_debt := true } { r with pass_debt := false } cfg) ∧
    (passesRequired { cols with pass_interest_cover := false } r cfg =
      passesRequired { cols with pass_interest_cover := true }
        { r with pass_interest_cover := false } cfg) ∧
    (passesRequired { cols with pass_fcf := false } r cfg =
      passesRequired { cols with pass_fcf := true } { r with pass_fcf := false } cfg) ∧
    (passesRequired { cols with pass_roic := false } r cfg =
      passesRequired { cols with pass_roic := true } { r with pass_roic := false } cfg) ∧
    (passesRequired { cols with pass_payout := false } r cfg =
      passesRequired { cols with pass_payout := true } { r with pass_payout := false } cfg) ∧
    (sellSignal { cols with QUALITY_PASS := false } r cfg =
      sellSignal { cols with QUALITY_PASS := true } { r with QUALITY_PASS := true } cfg) ∧
    (watchFlags { cols with pass_roic := false } r =
      watchFlags { cols with pass_roic := true } { r with pass_roic := true }) ∧
    (watchFlags { cols with ENTRY_PERMITTED := false } r =
      watchFlags { cols with ENTRY_PERMITTED := true } { r with ENTRY_PERMITTED := false }) :=
  ⟨rfl, rfl, rfl, rfl, rfl, rfl, rfl, rfl, rfl, rfl, rfl, rfl, rfl⟩

/-- Claim C5: the result rows are sorted by the descending key
`BUY_SIGNAL`, then `SELL_SIGNAL`, then (when the score column is
present) `score` with NaN last; ties keep original row order (any
key-tied sublist of the annotated input survives into the output);
consequently no `BUY_SIGNAL` row follows a non-`BUY_SIGNAL` row. -/
theorem C5_thm (t : Table) (cfg : Cfg) :
    ((computeActions t cfg).rows.Pairwise
      (fun a b => keyLE t.cols.score a b = true)) ∧
    (∀ c : List OutRow,
      (∀ a ∈ c, ∀ b ∈ c, keyLE t.cols.score a b = true) →
      c.Sublist (t.rows.map (annotate t.cols cfg)) →
      c.Sublist (computeActions t cfg).rows) ∧
    ((computeActions t cfg).rows.Pairwise
      (fun a b => b.BUY_SIGNAL = true → a.BUY_SIGNAL = true)) := by
  have hsorted :
      ((computeActions t cfg).rows.Pairwise
        (fun a b => keyLE t.cols.score a b = true)) :=
    List.sorted_mergeSort (keyLE_trans t.cols.score) (keyLE_total t.cols.score) _
  refine ⟨hsorted, fun c hc hsub => ?_, hsorted.imp fun h hb => keyLE_buy h hb⟩
  exact List.sublist_mergeSort (keyLE_trans t.cols.score) (keyLE_total t.cols.score)
    (List.pairwise_of_forall_mem_list hc) hsub

/-- Claim C5 at a concrete two-row table whose rows tie on the key: the
pair keeps its original order in the output. -/
theorem C5_witness :
    ((computeActions tieTable noneCfg).rows.Pairwise
      (fun a b => keyLE tieTable.cols.score a b = true)) ∧
    ([annotate tieTable.cols noneCfg rowNA,
      annotate tieTable.cols noneCfg
        { rowNA with drawdown_from_52w_high := .int (-5) }].Sublist
      (computeActions tieTable noneCfg).rows) ∧
    ((computeActions tieTable noneCfg).rows.Pairwise
      (fun a b => b.BUY_SIGNAL = true → a.BUY_SIGNAL = true)) := by
  refine ⟨(C5_thm tieTable noneCfg).1, ?_, (C5_thm tieTable noneCfg).2.2⟩
  refine (C5_thm tieTable noneCfg).2.1 _ (by decide) ?_
  show List.Sublist _ (tieTable.rows.map (annotate tieTable.cols noneCfg))
  exact List.Sublist.refl _

/-- Claim C6 as frozen is false: `compute_actions` is not total.  On a
zero-row table pandas' `apply(..., result_type="expand")` returns a
copy of the frame itself and the four-name `decided.columns`
assignment raises `ValueError` whenever the frame's column count is
not four — a header-only one-column sheet is such an input — while the
same one-column table with a row succeeds. -/
theorem C6_counterexample :
    computeActionsRun 1 ⟨colsEmpty, []⟩ noneCfg =
      .error "ValueError: Length mismatch" ∧
    computeActionsRun 1 ⟨colsEmpty, [rowNA]⟩ noneCfg =
      .ok (computeActions ⟨colsEmpty, [rowNA]⟩ noneCfg) := by
  constructor <;> rfl

/-- Claim C6 (amended): on every table with at least one row — for any
configuration, even with no recognized columns — the engine returns a
table with one decided row per input row and never raises, with
unparsable numeric cells coercing to NaN and unparsable boolean cells
to false; on a zero-row table, however, the call raises the
`ValueError` of the decided-columns assignment unless the normalized
frame has exactly four columns. -/
theorem C6_thm (outCols : ℕ) (t : Table) (cfg : Cfg) :
    (t.rows ≠ [] →
      computeActionsRun outCols t cfg = .ok (computeActions t cfg)) ∧
    (∀ T : OutTable, computeActionsRun outCols t cfg = .ok T →
      T.rows.length = t.rows.length) ∧
    (t.rows = [] → outCols ≠ 4 →
      computeActionsRun outCols t cfg = .error "ValueError: Length mismatch") ∧
    (∀ s : String, parsePyFloat (cleanNumStr s) = none → _to_num (.str s) = none) ∧
    (∀ s : String, pyLower (pyStrip s) ∉ affirmative → _to_bool (.str s) = false) := by
  refine ⟨fun h => ?_, fun T hT => ?_, fun he hc => ?_, fun s h => ?_, fun s h => ?_⟩
  · simp [computeActionsRun, h]
  · unfold computeActionsRun at hT
    split at hT
    · exact absurd hT (by simp)
    · simp only [Except.ok.injEq] at hT
      subst hT
      simp [computeActions]
  · simp [computeActionsRun, he, hc]
  · simp [_to_num, h]
  · simp [_to_bool, h]

/-- Claim C6 (amended) at concrete inputs: a one-row table with no
recognized columns succeeds with one output row, a zero-row five-column
frame raises, and concrete unparsable cells degrade. -/
theorem C6_witness :
    (computeActionsRun 1 ⟨colsEmpty, [rowNA]⟩ noneCfg =
      .ok (computeActions ⟨colsEmpty, [rowNA]⟩ noneCfg)) ∧
    ((computeActions ⟨colsEmpty, [rowNA]⟩ noneCfg).rows.length = 1) ∧
    (computeActionsRun 5 ⟨colsEmpty, []⟩ noneCfg =
      .error "ValueError: Length mismatch") ∧
    (_to_num (.str "abc") = none) ∧
    (_to_bool (.str "no") = false) :=
  ⟨(C6_thm 1 ⟨colsEmpty, [rowNA]⟩ noneCfg).1 (by simp),
    (C6_thm 1 ⟨colsEmpty, [rowNA]⟩ noneCfg).2.1
      (computeActions ⟨colsEmpty, [rowNA]⟩ noneCfg)
      ((C6_thm 1 ⟨colsEmpty, [rowNA]⟩ noneCfg).1 (by simp)),
    (C6_thm 5 ⟨colsEmpty, []⟩ noneCfg).2.2.1 rfl (by norm_num),
    (C6_thm 1 ⟨colsEmpty, [rowNA]⟩ noneCfg).2.2.2.1 "abc" (by decide),
    (C6_thm 1 ⟨colsEmpty, [rowNA]⟩ noneCfg).2.2.2.2 "no" (by decide)⟩

/-- Claim C7 as frozen is false: at risk 50 the buy-drawdown default is
the anchor −0.20, not the midpoint −0.225 of its endpoints −0.35 and
−0.10. -/
theorem C7_counterexample :
    ddBuyDefault 50 = -0.20 ∧ ddBuyDefault 50 ≠ ((-0.35 : ℚ) + (-0.10)) / 2 := by
  constructor <;> norm_num [ddBuyDefault, interp3]

/-- Claim C7 (amended): the three defaults are piecewise-linear
interpolations over the anchors {0, 50, 100} with endpoint values
85→55, −0.35→−0.10 and −0.45→−0.20 and middle anchors 70, −0.20 and
−0.30 (the score default additionally truncated to an integer); only
the score's middle anchor is the midpoint of its endpoints. -/
theorem C7_thm :
    (scoreMinDefault 0 = 85 ∧ scoreMinDefault 50 = 70 ∧ scoreMinDefault 100 = 55) ∧
    (ddBuyDefault 0 = -0.35 ∧ ddBuyDefault 50 = -0.20 ∧ ddBuyDefault 100 = -0.10) ∧
    (ddStrongDefault 0 = -0.45 ∧ ddStrongDefault 50 = -0.30 ∧ ddStrongDefault 100 = -0.20) ∧
    ((scoreMinDefault 50 : ℚ) = (85 + 55) / 2) ∧
    (∀ risk : ℚ, 0 ≤ risk → risk ≤ 50 →
      scoreMinDefault risk = pyTrunc (85 - 0.3 * risk) ∧
      ddBuyDefault risk = -0.35 + 0.15 * risk / 50 ∧
      ddStrongDefault risk = -0.45 + 0.15 * risk / 50) ∧
    (∀ risk : ℚ, 50 < risk → risk ≤ 100 →
      scoreMinDefault risk = pyTrunc (70 - 0.3 * (risk - 50)) ∧
      ddBuyDefault risk = -0.20 + 0.10 * (risk - 50) / 50 ∧
      ddStrongDefault risk = -0.30 + 0.10 * (risk - 50) / 50) := by
  refine ⟨?_, ?_, ?_, ?_, fun risk h0 h50 => ?_, fun risk h50 h100 => ?_⟩
  · refine ⟨by norm_num [scoreMinDefault, interp3, pyTrunc],
      by norm_num [scoreMinDefault, interp3, pyTrunc],
      by norm_num [scoreMinDefault, interp3, pyTrunc]⟩
  · refine ⟨by norm_num [ddBuyDefault, interp3], by norm_num [ddBuyDefault, interp3],
      by norm_num [ddBuyDefault, interp3]⟩
  · refine ⟨by norm_num [ddStrongDefault, interp3], by norm_num [ddStrongDefault, interp3],
      by norm_num [ddStrongDefault, interp3]⟩
  · norm_num [scoreMinDefault, interp3, pyTrunc]
  · rcases h0.eq_or_lt with he | hlt
    · rw [← he]
      refine ⟨by norm_num [scoreMinDefault, interp3], by norm_num [ddBuyDefault, interp3],
        by norm_num [ddStrongDefault, interp3]⟩
    · refine ⟨?_, ?_, ?_⟩
      · rw [scoreMinDefault, interp3_left hlt h50]
        ring_nf
      · rw [ddBuyDefault, interp3_left hlt h50]
        ring
      · rw [ddStrongDefault, interp3_left hlt h50]
        ring
  · refine ⟨?_, ?_, ?_⟩
    · rw [scoreMinDefault, interp3_right h50 h100]
      ring_nf
    · rw [ddBuyDefault, interp3_right h50 h100]
      ring
    · rw [ddStrongDefault, interp3_right h50 h100]
      ring

/-- Claim C7 (amended) at the concrete risks 30 and 80. -/
theorem C7_witness :
    (scoreMinDefault 30 = pyTrunc (85 - 0.3 * 30) ∧
      ddBuyDefault 30 = -0.35 + 0.15 * 30 / 50 ∧
      ddStrongDefault 30 = -0.45 + 0.15 * 30 / 50) ∧
    (scoreMinDefault 80 = pyTrunc (70 - 0.3 * (80 - 50)) ∧
      ddBuyDefault 80 = -0.20 + 0.10 * (80 - 50) / 50 ∧
      ddStrongDefault 80 = -0.30 + 0.10 * (80 - 50) / 50) :=
  ⟨C7_thm.2.2.2.2.1 30 (by norm_num) (by norm_num),
    C7_thm.2.2.2.2.2 80 (by norm_num) (by norm_num)⟩

/-- Claim C8: rerunning the engine on its own output restricted to the
original recognized columns reproduces the `ACTION` assignment of every
record of the first run (in fact the whole sorted row list). -/
theorem C8_thm (t : Table) (cfg : Cfg) :
    (computeActions (restrictTable (computeActions t cfg)) cfg).rows.map OutRow.ACTION =
      (computeActions t cfg).rows.map OutRow.ACTION := by
  have hmap :
      ((computeActions t cfg).rows.map (fun o => restrictRow o.row)).map
          (annotate t.cols cfg) = (computeActions t cfg).rows := by
    rw [List.map_map]
    have h1 : ∀ o ∈ (computeActions t cfg).rows,
        (annotate t.cols cfg ∘ fun o => restrictRow o.row) o = id o := by
      intro o ho
      simp only [computeActions, List.mem_mergeSort, List.mem_map] at ho
      obtain ⟨r, hr, rfl⟩ := ho
      exact annotate_restrictRow t.cols cfg r
    rw [List.map_congr_left h1, List.map_id]
  have hsorted :
      ((computeActions t cfg).rows.Pairwise
        (fun a b => keyLE t.cols.score a b = true)) :=
    List.sorted_mergeSort (keyLE_trans t.cols.score) (keyLE_total t.cols.score) _
  show (List.mergeSort
      (((computeActions t cfg).rows.map (fun o => restrictRow o.row)).map
        (annotate t.cols cfg)) (keyLE t.cols.score)).map OutRow.ACTION = _
  rw [hmap, List.mergeSort_of_sorted hsorted]

/-- Claim C9: the engine never mutates its input table — the call
copies the table first (engine.py line 94) and every normalization and
annotation targets the copy, so the input component of the call state
is returned unchanged. -/
theorem C9_thm (df : Table) (cfg : Cfg) : (computeActionsFrom df cfg).1 = df := rfl

/-- Claim C10: an empty configuration mapping behaves exactly like the
fully-populated one with the engine's fallbacks `SCORE_BUY_MIN = 70`,
`DD_BUY = −0.20`, `DD_STRONG = −0.30`, `ALLOW_SPECULATIVE = true`,
`REQUIRE_PASS_DEBT/INTEREST/FCF = true`,
`REQUIRE_PASS_ROIC/PAYOUT = false`. -/
theorem C10_thm (t : Table) :
    computeActions t ⟨none, none, none, none, none, none, none, none, none⟩ =
      computeActions t
        ⟨some 70, some (-0.20), some (-0.30), some true, some true, some true,
          some true, some false, some false⟩ := rfl
